import Mathlib

/-!
Shallow embedding of `src/model/run.py` from the
amazon-sagemaker-safe-deployment-pipeline repository.

The script builds a Step Functions workflow graph out of SageMaker /
Lambda steps, pushes it to an existing state machine and writes four
JSON artifacts.  We embed:

* JSON object values (`JVal`) and Python dict-as-association-list
  operations (`dget`, `pyDictMerge`, `pyDict`) with Python's
  insertion-order/override semantics;
* the step-functions step objects (`Step`) with the fields the script
  passes to the SDK constructors;
* the pure graph-builder functions (`create_experiment_step`,
  `create_baseline_step`, `create_training_step`, `create_graph`,
  `get_dev_params`, `get_prd_params`) translated line by line;
* `main` as a function `run` from an abstract environment (file
  system, CodePipeline state, workflow-update success) to the ordered
  list of externally visible effects (`Eff`) together with an optional
  error, mirroring the statement order of the Python source.
-/

namespace RunModel

/-- JSON scalar values as loaded by `json.load` (the configuration files
read by the script hold flat string-valued objects; numbers and booleans
are included because `hyperparameters.json` may hold them before the
script stringifies them). -/
inductive JVal where
  | null
  | str (s : String)
  | num (n : Int)
  | bool (b : Bool)
deriving DecidableEq, Repr

/-- Python `str()` on a JSON scalar, as used by the
`hyperparameters[i] = str(hyperparameters[i])` loop in `main`. -/
def pyStr : JVal → String
  | .null => "None"
  | .str s => s
  | .num n => toString n
  | .bool b => if b then "True" else "False"

/-- Key lookup in a Python dict represented as an association list with
unique keys (first match). -/
def dget {α : Type} (l : List (String × α)) (k : String) : Option α :=
  (l.find? (fun p => p.1 == k)).map (fun p => p.2)

/-- Subscript access `d[k]` at call sites where the key is known to be
present (the script only reaches these accesses after `main` has already
touched the key); the `.null`/default fallback is never exercised on
those paths. -/
def pyGet (l : List (String × JVal)) (k : String) : JVal :=
  (dget l k).getD JVal.null

/-- Subscript access for string-valued dicts, same proviso as `pyGet`. -/
def pyGetS (l : List (String × String)) (k : String) : String :=
  (dget l k).getD ""

/-- Python `{**a, **b}` / `dict(a, **b)` on dicts with unique keys: keys
of `a` in order with values overridden by `b`, followed by the keys of
`b` not present in `a`, in order. -/
def pyDictMerge {α : Type} (a b : List (String × α)) : List (String × α) :=
  a.map (fun p => (p.1, (dget b p.1).getD p.2)) ++
    b.filter (fun p => (dget a p.1).isNone)

/-- One Python dict insertion `d[k] = v`: overwrite in place when the key
exists, append otherwise. -/
def pyDictIns {α : Type} (acc : List (String × α)) (kv : String × α) :
    List (String × α) :=
  if (dget acc kv.1).isSome then
    acc.map (fun p => if p.1 = kv.1 then (p.1, kv.2) else p)
  else acc ++ [kv]

/-- Python `dict(pairs)`: fold of insertions (later values win, position
of first insertion kept). -/
def pyDict {α : Type} (l : List (String × α)) : List (String × α) :=
  l.foldl pyDictIns []

/-- A value appearing in a step definition: a literal string, a value
taken from a loaded JSON file, or a placeholder for a key of the
step-functions `ExecutionInput`. -/
inductive SVal where
  | lit (s : String)
  | jv (v : JVal)
  | exec (key : String)
deriving DecidableEq, Repr

/-- One element of a JSONPath into the state-machine data. -/
inductive PathElem where
  | field (name : String)
  | index (i : Nat)
deriving DecidableEq, Repr

/-- A choice rule of a Step Functions `Choice` state.  The script only
uses `ChoiceRule.NumericLessThan`; `varPath` is its `variable` keyword
argument. -/
inductive ChoiceRule where
  | numericLessThan (varPath : List PathElem) (value : ℚ)
deriving DecidableEq, Repr

/-- The `sagemaker.estimator.Estimator` built in `create_training_step`,
with the fields the script sets. -/
structure Estimator where
  image_uri : JVal
  role : String
  instance_count : Nat
  instance_type : String
  output_path : String
  hyperparameters : List (String × String)
deriving DecidableEq, Repr

/-- The `stepfunctions` step objects the script constructs, with the
constructor arguments it passes.  `Catch` clauses are
`(error_equals, next_step)` pairs; a `trainingStep`'s `data` maps a
channel name to `(s3_data, content_type)`; a `processingStep`'s inputs
are `(source, destination, input_name)` triples and its outputs
`(source, destination, output_name)` triples. -/
inductive Step where
  | lambdaStep (name : String) (function_name : String)
      (payload : List (String × String)) (result_path : String)
  | failState (name : String) (cause : Option String) (comment : Option String)
  | succeedState (name : String)
  | processingStep (name : String) (image_uri : String) (role : String)
      (instance_count : Nat) (instance_type : String)
      (max_runtime_in_seconds : Nat) (env : List (String × String))
      (job_name : SVal)
      (inputs : List (JVal × String × String))
      (outputs : List (String × SVal × String))
      (experiment_config : List (String × SVal))
      (tags : List (String × SVal))
      (catches : List (List String × Step))
  | trainingStep (name : String) (estimator : Estimator)
      (data : List (String × JVal × String))
      (job_name : SVal)
      (experiment_config : List (String × SVal))
      (tags : List (String × SVal))
      (result_path : String)
      (catches : List (List String × Step))
  | modelStep (name : String) (input_path : String) (model : Estimator)
      (model_name : SVal) (result_path : String)
  | choiceState (name : String) (choices : List (ChoiceRule × Step))
      (defaultStep : Option Step)
  | parallelState (name : String) (branches : List Step)
      (catches : List (List String × Step))
  | chain (steps : List Step)

/-- The name a step was constructed with (empty for a bare `Chain`). -/
def stepName : Step → String
  | .lambdaStep n .. => n
  | .failState n .. => n
  | .succeedState n => n
  | .processingStep n .. => n
  | .trainingStep n .. => n
  | .modelStep n .. => n
  | .choiceState n .. => n
  | .parallelState n .. => n
  | .chain _ => ""

/-- The `stepfunctions.inputs.ExecutionInput` object; subscripting it
produces a symbolic placeholder for the named execution-input key (all
keys the script uses are present in the schema it declares). -/
structure ExecutionInput where
  schema : List String
deriving DecidableEq, Repr

/-- Subscript access `execution_input["key"]`. -/
def ExecutionInput.get (_e : ExecutionInput) (key : String) : SVal :=
  SVal.exec key

/-- Deterministic stand-in for `sagemaker.image_uris.retrieve`: the SDK
resolves `(region, framework, version)` against a built-in registry
table, a pure lookup we encode injectively. -/
def retrieve (region framework version : String) : String :=
  "image-registry:" ++ framework ++ ":" ++ version ++ ":" ++ region

/-- Translation of `get_training_image` (run.py lines 104-105). -/
def get_training_image (region : String) : String :=
  retrieve region "xgboost" "latest"

/-- Translation of `create_experiment_step` (run.py lines 20-29). -/
def create_experiment_step (create_experiment_function_name : String) : Step :=
  Step.lambdaStep "Create Experiment" create_experiment_function_name
    [("ExperimentName.$", "$.ExperimentName"), ("TrialName.$", "$.TrialName")]
    "$.CreateTrialResults"

/-- The value of `json.dumps(DatasetFormat.csv())` used for the baseline
processor environment. -/
def dataset_format_csv : String :=
  "\x7b\"csv\": \x7b\"header\": true\x7d\x7d"

/-- Translation of `create_baseline_step` (run.py lines 32-101). -/
def create_baseline_step (input_data : List (String × JVal))
    (execution_input : ExecutionInput) (region : String) (role : String) :
    Step :=
  Step.processingStep "Baseline Job"
    (retrieve region "model-monitor" "latest") role 1 "ml.m5.xlarge" 1800
    [("dataset_format", dataset_format_csv),
     ("dataset_source", "/opt/ml/processing/input/baseline_dataset_input"),
     ("output_path", "/opt/ml/processing/output"),
     ("publish_cloudwatch_metrics", "Disabled")]
    (execution_input.get "BaselineJobName")
    [(pyGet input_data "BaselineUri",
      "/opt/ml/processing/input/baseline_dataset_input",
      "baseline_dataset_input")]
    [("/opt/ml/processing/output", execution_input.get "BaselineOutputUri",
      "monitoring_output")]
    [("ExperimentName", execution_input.get "ExperimentName"),
     ("TrialName", execution_input.get "TrialName"),
     ("TrialComponentDisplayName", SVal.lit "Baseline")]
    [("GitBranch", execution_input.get "GitBranch"),
     ("GitCommitHash", execution_input.get "GitCommitHash"),
     ("DataVersionId", execution_input.get "DataVersionId")]
    [(["States.TaskFailed"],
      Step.failState "Baseline failed" (some "SageMakerBaselineJobFailed") none)]

/-- The built-in default hyperparameters `hp` of `create_training_step`
(run.py lines 128-137). -/
def default_hyperparameters : List (String × String) :=
  [("max_depth", "9"), ("eta", "0.2"), ("gamma", "4"),
   ("min_child_weight", "300"), ("subsample", "0.8"),
   ("objective", "reg:linear"), ("early_stopping_rounds", "10"),
   ("num_round", "100")]

/-- The JSONPath of
`training_query_step.output()["QueryTrainingResults"]["Payload"]["results"]["TrainingMetrics"][0]["Value"]`
used as the choice-rule variable (run.py lines 204-208). -/
def training_metric_path : List PathElem :=
  [.field "QueryTrainingResults", .field "Payload", .field "results",
   .field "TrainingMetrics", .index 0, .field "Value"]

/-- The `Fail` state `check_accuracy_fail_step` (run.py lines 197-199). -/
def check_accuracy_fail_step : Step :=
  Step.failState "Model Error Too Low" none
    (some "RMSE accuracy higher than threshold")

/-- The `Succeed` state `check_accuracy_succeed_step` (run.py line 201). -/
def check_accuracy_succeed_step : Step :=
  Step.succeedState "Model Error Acceptable"

/-- The `threshold_rule` choice rule (run.py lines 204-209). -/
def threshold_rule : ChoiceRule :=
  ChoiceRule.numericLessThan training_metric_path 10

/-- The `check_accuracy_step` Choice state with its single rule and its
default branch (run.py lines 211-214). -/
def check_accuracy_step : Step :=
  Step.choiceState "RMSE < 10"
    [(threshold_rule, check_accuracy_succeed_step)]
    (some check_accuracy_fail_step)

/-- Translation of `create_training_step` (run.py lines 108-217).  The
`region` parameter is unused in the Python body as well. -/
def create_training_step (image_uri : JVal)
    (hyperparameters : List (String × String))
    (input_data : List (String × JVal))
    (output_data : List (String × String))
    (execution_input : ExecutionInput)
    (query_training_function_name : String)
    (_region : String) (role : String) : Step :=
  let xgb : Estimator :=
    { image_uri := image_uri
      role := role
      instance_count := 1
      instance_type := "ml.m4.xlarge"
      output_path := pyGetS output_data "ModelOutputUri"
      hyperparameters := pyDictMerge default_hyperparameters hyperparameters }
  let training_step := Step.trainingStep "Training Job" xgb
    [("train", pyGet input_data "TrainingUri", "csv"),
     ("validation", pyGet input_data "ValidationUri", "csv")]
    (execution_input.get "TrainingJobName")
    [("ExperimentName", execution_input.get "ExperimentName"),
     ("TrialName", execution_input.get "TrialName"),
     ("TrialComponentDisplayName", SVal.lit "Training")]
    [("GitBranch", execution_input.get "GitBranch"),
     ("GitCommitHash", execution_input.get "GitCommitHash"),
     ("DataVersionId", execution_input.get "DataVersionId")]
    "$.TrainingResults"
    [(["States.TaskFailed"],
      Step.failState "Training failed" (some "SageMakerTrainingJobFailed") none)]
  let model_step := Step.modelStep "Save Model" "$.TrainingResults" xgb
    (execution_input.get "TrainingJobName") "$.ModelStepResults"
  let training_query_step := Step.lambdaStep "Query Training Results"
    query_training_function_name
    [("TrainingJobName.$", "$.TrainingJobName")]
    "$.QueryTrainingResults"
  Step.chain [training_step, model_step, training_query_step,
    check_accuracy_step]

/-- Translation of `create_graph` (run.py lines 220-236); its parameters
shadow the builder functions exactly as the Python parameters do. -/
def create_graph (create_experiment_step baseline_step training_step : Step) :
    Step :=
  let sagemaker_jobs := Step.parallelState "SageMaker Jobs"
    [baseline_step, training_step]
    [(["States.TaskFailed"],
      Step.failState "SageMaker Jobs failed" (some "SageMakerJobsFailed") none)]
  Step.chain [create_experiment_step, sagemaker_jobs]

/-- Translation of `get_dev_params` (run.py lines 239-249); we return
the association list stored under the single `"Parameters"` key of the
Python result. -/
def get_dev_params (model_name job_id role : String) (image_uri : JVal)
    (kms_key_id : String) : List (String × JVal) :=
  [("ImageRepoUri", image_uri),
   ("ModelName", JVal.str model_name),
   ("TrainJobId", JVal.str job_id),
   ("MLOpsRoleArn", JVal.str role),
   ("VariantName", JVal.str ("dev-" ++ model_name)),
   ("KmsKeyId", JVal.str kms_key_id)]

/-- Translation of `get_prd_params` (run.py lines 252-259); as for
`get_dev_params` we return the association list under `"Parameters"`.
`dict(dev_params, **prod_params)` is `pyDictMerge`. -/
def get_prd_params (model_name job_id role : String) (image_uri : JVal)
    (kms_key_id : String) : List (String × JVal) :=
  let dev_params := get_dev_params model_name job_id role image_uri kms_key_id
  let prod_params : List (String × JVal) :=
    [("VariantName", JVal.str ("prd-" ++ model_name)),
     ("ScheduleMetricName", JVal.str "feature_baseline_drift_total_amount"),
     ("ScheduleMetricThreshold", JVal.str "0.20")]
  pyDictMerge dev_params prod_params

/-- Semantics of a choice rule against an assignment of numeric values
to JSONPaths (Step Functions `NumericLessThan`). -/
def choiceRuleHolds (env : List PathElem → Option ℚ) : ChoiceRule → Bool
  | .numericLessThan v thr =>
    match env v with
    | some x => decide (x < thr)
    | none => false

/-- Routing of a `Choice` state: the first rule that holds wins,
otherwise the default branch is taken. -/
def routeChoice (choices : List (ChoiceRule × Step)) (defaultStep : Option Step)
    (env : List PathElem → Option ℚ) : Option Step :=
  match choices.find? (fun c => choiceRuleHolds env c.1) with
  | some c => some c.2
  | none => defaultStep

/-- One `actionState` entry of a CodePipeline `get_pipeline_state`
response, with the fields the script reads. -/
structure ActionState where
  actionName : String
  revisionId : String
deriving DecidableEq, Repr

/-- One `stageState` entry; `pipelineExecutionId` is the field
`latestExecution.pipelineExecutionId`. -/
structure StageState where
  actionStates : List ActionState
  pipelineExecutionId : String
deriving DecidableEq, Repr

/-- A CodePipeline `get_pipeline_state` response. -/
structure PipelineState where
  stageStates : List StageState
deriving DecidableEq, Repr

/-- The exceptions the script can raise before completing. -/
inductive Err where
  | fileNotFound (path : String)
  | keyError (key : String)
  | indexError
  | clientError (name : String)
  | updateFailed (arn : String)
deriving DecidableEq, Repr

/-- The environment `main` runs against: the AWS region, the parsed
content of every readable JSON file, `os.path.exists`, the CodePipeline
state per pipeline name, and whether the workflow update call
succeeds. -/
structure Env where
  region : String
  files : String → Option (List (String × JVal))
  pathExists : String → Bool
  pipelines : String → Option PipelineState
  updateOk : Bool

/-- The command-line arguments of the script.  `ecr_dir` is the one
optional argument (`required=False`), hence an `Option`. -/
structure Args where
  git_branch : String
  pipeline_name : String
  model_name : String
  deploy_role : String
  sagemaker_role : String
  sagemaker_bucket : String
  data_dir : String
  output_dir : String
  ecr_dir : Option String
  kms_key_id : String
  workflow_pipeline_arn : String
  create_experiment_function_name : String
  query_training_function_name : String

/-- `os.path.join` for the directory/file joins the script performs. -/
def pjoin (d f : String) : String := d ++ "/" ++ f

/-- Python truthiness of the optional `ecr_dir` argument (`if ecr_dir:`
is false for `None` and for the empty string). -/
def pyTruthy : Option String → Bool
  | none => false
  | some s => !s.isEmpty

/-- The content of a file written by `main`: the serialized workflow
definition, a plain JSON object, or a JSON object wrapped under a
single `"Parameters"` key (the shape `get_dev_params` / `get_prd_params`
return). -/
inductive Content where
  | graphJson (g : Step)
  | obj (o : List (String × JVal))
  | paramsObj (o : List (String × JVal))

/-- The externally visible effects of `main`, in program order: file
reads, the CodePipeline state query, attaching to and updating the
Step Functions workflow, creating the output directory, and file
writes. -/
inductive Eff where
  | read (path : String)
  | getPipelineState (name : String)
  | attachWorkflow (arn : String)
  | updateWorkflow (arn : String) (graph : Step)
  | mkdir (path : String)
  | write (path : String) (content : Content)

/-- Translation of `get_pipeline_revision` (run.py lines 262-274). -/
def get_pipeline_revision (env : Env) (pipeline_name : String) :
    Except Err (List (String × String)) :=
  match env.pipelines pipeline_name with
  | none => .error (.clientError pipeline_name)
  | some response =>
    match response.stageStates with
    | [] => .error .indexError
    | s0 :: _ =>
      let rev := pyDict (s0.actionStates.map (fun r => (r.actionName, r.revisionId)))
      .ok (pyDictIns rev ("JobId", s0.pipelineExecutionId))

/-- The image-resolution phase of `main` (run.py lines 296-303): read
`imageDetail.json` from `ecr_dir` when that argument is truthy,
otherwise use the managed xgboost image for the region.  Returns the
effects of the phase and its result or exception. -/
def imageStage (env : Env) (a : Args) : List Eff × Except Err JVal :=
  if pyTruthy a.ecr_dir then
    match env.files (pjoin (a.ecr_dir.getD "") "imageDetail.json") with
    | none =>
      ([], .error (.fileNotFound (pjoin (a.ecr_dir.getD "") "imageDetail.json")))
    | some d =>
      match dget d "ImageURI" with
      | none =>
        ([Eff.read (pjoin (a.ecr_dir.getD "") "imageDetail.json")],
         .error (.keyError "ImageURI"))
      | some v =>
        ([Eff.read (pjoin (a.ecr_dir.getD "") "imageDetail.json")], .ok v)
  else
    ([], .ok (JVal.str (get_training_image env.region)))

/-- The input-data phase of `main` (run.py lines 305-309): read
`inputData.json` and access its `TrainingUri`, `ValidationUri` and
`BaselineUri` keys (the `print` calls), raising `KeyError` when one is
absent. -/
def inputDataStage (env : Env) (a : Args) :
    List Eff × Except Err (List (String × JVal)) :=
  match env.files (pjoin a.data_dir "inputData.json") with
  | none => ([], .error (.fileNotFound (pjoin a.data_dir "inputData.json")))
  | some input_data =>
    let e := [Eff.read (pjoin a.data_dir "inputData.json")]
    match dget input_data "TrainingUri" with
    | none => (e, .error (.keyError "TrainingUri"))
    | some _ =>
      match dget input_data "ValidationUri" with
      | none => (e, .error (.keyError "ValidationUri"))
      | some _ =>
        match dget input_data "BaselineUri" with
        | none => (e, .error (.keyError "BaselineUri"))
        | some _ => (e, .ok input_data)

/-- The revision phase of `main` (run.py lines 311-318): call
`get_pipeline_revision` and access the `JobId`, `GitSource` and
`DataSource` keys of its result. -/
def revisionStage (env : Env) (a : Args) :
    List Eff × Except Err (String × String × String) :=
  let e := [Eff.getPipelineState a.pipeline_name]
  match get_pipeline_revision env a.pipeline_name with
  | .error err => (e, .error err)
  | .ok revision =>
    match dget revision "JobId" with
    | none => (e, .error (.keyError "JobId"))
    | some job_id =>
      match dget revision "GitSource" with
      | none => (e, .error (.keyError "GitSource"))
      | some git_commit_id =>
        match dget revision "DataSource" with
        | none => (e, .error (.keyError "DataSource"))
        | some data_version_id => (e, .ok (job_id, git_commit_id, data_version_id))

/-- The `hyperparameters[i] = str(hyperparameters[i])` loop of `main`
(run.py lines 332-333). -/
def stringifyHp (l : List (String × JVal)) : List (String × String) :=
  l.map (fun p => (p.1, pyStr p.2))

/-- The hyperparameter phase of `main` (run.py lines 328-333): read
`hyperparameters.json` only when it exists, the hyperparameters being
empty otherwise. -/
def hyperStage (env : Env) (a : Args) :
    List Eff × Except Err (List (String × String)) :=
  if env.pathExists (pjoin a.data_dir "hyperparameters.json") then
    match env.files (pjoin a.data_dir "hyperparameters.json") with
    | none =>
      ([], .error (.fileNotFound (pjoin a.data_dir "hyperparameters.json")))
    | some h =>
      ([Eff.read (pjoin a.data_dir "hyperparameters.json")], .ok (stringifyHp h))
  else ([], .ok [])

/-- The `execution_input` schema object of `main` (run.py lines
336-347). -/
def execution_input_schema : ExecutionInput :=
  ⟨["GitBranch", "GitCommitHash", "DataVersionId", "ExperimentName",
    "TrialName", "BaselineJobName", "BaselineOutputUri", "TrainingJobName"]⟩

/-- The `output_data` dict of `main` (run.py lines 320-324). -/
def output_data_of (a : Args) (job_id : String) : List (String × String) :=
  [("ModelOutputUri",
    "s3://" ++ a.sagemaker_bucket ++ "/" ++ a.model_name ++ "/model"),
   ("BaselineOutputUri",
    "s3://" ++ a.sagemaker_bucket ++ "/" ++ a.model_name ++
      "/monitoring/baseline/mlops-" ++ a.model_name ++ "-pbl-" ++ job_id)]

/-- The workflow graph `main` builds (run.py lines 349-362). -/
def workflow_graph_of (env : Env) (a : Args) (image_uri : JVal)
    (input_data : List (String × JVal))
    (hyperparameters : List (String × String)) (job_id : String) : Step :=
  create_graph
    (create_experiment_step a.create_experiment_function_name)
    (create_baseline_step input_data execution_input_schema env.region
      a.sagemaker_role)
    (create_training_step image_uri hyperparameters input_data
      (output_data_of a job_id) execution_input_schema
      a.query_training_function_name env.region a.sagemaker_role)

/-- The `workflow_inputs` dict `main` writes to `workflow-input.json`
(run.py lines 377-393). -/
def workflow_inputs_of (a : Args) (job_id git_commit_id data_version_id : String) :
    List (String × JVal) :=
  let experiment_name := "mlops-" ++ a.model_name
  let trial_name := "mlops-" ++ a.model_name ++ "-" ++ job_id
  [("ExperimentName", JVal.str experiment_name),
   ("TrialName", JVal.str trial_name),
   ("GitBranch", JVal.str a.git_branch),
   ("GitCommitHash", JVal.str git_commit_id),
   ("DataVersionId", JVal.str data_version_id),
   ("BaselineJobName", JVal.str trial_name),
   ("BaselineOutputUri",
    JVal.str (pyGetS (output_data_of a job_id) "BaselineOutputUri")),
   ("TrainingJobName", JVal.str trial_name)]

/-- The four file writes of `main` (run.py lines 373-401), in program
order. -/
def writes_of (env : Env) (a : Args) (image_uri : JVal)
    (input_data : List (String × JVal))
    (hyperparameters : List (String × String))
    (job_id git_commit_id data_version_id : String) : List Eff :=
  [Eff.write (pjoin a.output_dir "workflow-graph.json")
     (Content.graphJson
       (workflow_graph_of env a image_uri input_data hyperparameters job_id)),
   Eff.write (pjoin a.output_dir "workflow-input.json")
     (Content.obj (workflow_inputs_of a job_id git_commit_id data_version_id)),
   Eff.write (pjoin a.output_dir "deploy-model-dev.json")
     (Content.paramsObj
       (get_dev_params a.model_name job_id a.deploy_role image_uri a.kms_key_id)),
   Eff.write (pjoin a.output_dir "template-model-prd.json")
     (Content.paramsObj
       (get_prd_params a.model_name job_id a.deploy_role image_uri a.kms_key_id))]

/-- Translation of `main` (run.py lines 277-401) as the ordered list of
its externally visible effects together with the exception it raises, if
any.  The phase order matches the statement order of the source: image
resolution, input data, pipeline revision, hyperparameters, graph
construction, workflow attach/update, output-directory creation, four
JSON writes. -/
def run (env : Env) (a : Args) : List Eff × Option Err :=
  match imageStage env a with
  | (e1, .error err) => (e1, some err)
  | (e1, .ok image_uri) =>
    match inputDataStage env a with
    | (e2, .error err) => (e1 ++ e2, some err)
    | (e2, .ok input_data) =>
      match revisionStage env a with
      | (e3, .error err) => (e1 ++ e2 ++ e3, some err)
      | (e3, .ok (job_id, git_commit_id, data_version_id)) =>
        match hyperStage env a with
        | (e4, .error err) => (e1 ++ e2 ++ e3 ++ e4, some err)
        | (e4, .ok hyperparameters) =>
          let workflow_graph :=
            workflow_graph_of env a image_uri input_data hyperparameters job_id
          let e5 := [Eff.attachWorkflow a.workflow_pipeline_arn,
                     Eff.updateWorkflow a.workflow_pipeline_arn workflow_graph]
          if env.updateOk then
            let e6 := if env.pathExists a.output_dir then []
                      else [Eff.mkdir a.output_dir]
            (e1 ++ e2 ++ e3 ++ e4 ++ e5 ++ e6 ++
              writes_of env a image_uri input_data hyperparameters job_id
                git_commit_id data_version_id, none)
          else
            (e1 ++ e2 ++ e3 ++ e4 ++ e5,
             some (Err.updateFailed a.workflow_pipeline_arn))

/-- Effects that neither create nor write files nor touch the workflow:
reads and the pipeline-state query, the only effects the pre-update
phases of `main` produce. -/
def isBenign : Eff → Bool
  | .read _ => true
  | .getPipelineState _ => true
  | _ => false

/-- File-write effects. -/
def isWrite : Eff → Bool
  | .write _ _ => true
  | _ => false

/-- Directory-creation or file-write effects. -/
def isMkdirOrWrite : Eff → Bool
  | .mkdir _ => true
  | .write _ _ => true
  | _ => false

/-- Workflow attach/update or file-write effects (the pushes and the
artifact writes of claim C4). -/
def isPushOrWrite : Eff → Bool
  | .attachWorkflow _ => true
  | .updateWorkflow _ _ => true
  | .write _ _ => true
  | _ => false

/-- The estimator of the leading training step of a chain, as produced
by `create_training_step`. -/
def chainTrainingEstimator : Step → Option Estimator
  | .chain (Step.trainingStep _ est _ _ _ _ _ _ :: _) => some est
  | _ => none

/-- The arguments of the graph-building functions, bundled so that two
runs can be compared. -/
structure GraphInputs where
  create_experiment_function_name : String
  image_uri : JVal
  hyperparameters : List (String × String)
  input_data : List (String × JVal)
  output_data : List (String × String)
  execution_input : ExecutionInput
  query_training_function_name : String
  region : String
  role : String

/-- The composition of the four graph-building functions exactly as
`main` composes them (run.py lines 349-362). -/
def buildWorkflowGraph (g : GraphInputs) : Step :=
  create_graph
    (create_experiment_step g.create_experiment_function_name)
    (create_baseline_step g.input_data g.execution_input g.region g.role)
    (create_training_step g.image_uri g.hyperparameters g.input_data
      g.output_data g.execution_input g.query_training_function_name
      g.region g.role)

/-- The early-failure conditions of claim C10: `inputData.json` missing
or lacking one of its three required keys, the pipeline revision lacking
a `GitSource` or `DataSource` action, or the workflow update failing. -/
def earlyFailure (env : Env) (a : Args) : Prop :=
  env.files (pjoin a.data_dir "inputData.json") = none ∨
  (∃ d, env.files (pjoin a.data_dir "inputData.json") = some d ∧
    (dget d "TrainingUri" = none ∨ dget d "ValidationUri" = none ∨
     dget d "BaselineUri" = none)) ∨
  (∃ rev, get_pipeline_revision env a.pipeline_name = Except.ok rev ∧
    (dget rev "GitSource" = none ∨ dget rev "DataSource" = none)) ∨
  env.updateOk = false

/-- A concrete environment on which `main` succeeds, used to witness the
success-path theorems. -/
def env0 : Env where
  region := "us-east-1"
  files := fun p =>
    if p = "data/inputData.json" then
      some [("TrainingUri", JVal.str "s3://t"),
            ("ValidationUri", JVal.str "s3://v"),
            ("BaselineUri", JVal.str "s3://b")]
    else none
  pathExists := fun _ => false
  pipelines := fun p =>
    if p = "pl" then
      some ⟨[⟨[⟨"GitSource", "c1"⟩, ⟨"DataSource", "d1"⟩], "job-1"⟩]⟩
    else none
  updateOk := true

/-- A concrete environment with no readable files, used to witness the
early-failure theorem. -/
def envFail : Env where
  region := "us-east-1"
  files := fun _ => none
  pathExists := fun _ => false
  pipelines := fun _ => none
  updateOk := true

/-- Concrete command-line arguments shared by the witnesses. -/
def a0 : Args where
  git_branch := "main"
  pipeline_name := "pl"
  model_name := "m"
  deploy_role := "dr"
  sagemaker_role := "sr"
  sagemaker_bucket := "bkt"
  data_dir := "data"
  output_dir := "out"
  ecr_dir := none
  kms_key_id := "kms"
  workflow_pipeline_arn := "arn"
  create_experiment_function_name := "cef"
  query_training_function_name := "qtf"

theorem dget_nil {α : Type} (k : String) : dget ([] : List (String × α)) k = none := rfl

theorem dget_cons_pos {α : Type} {h : String × α} {t : List (String × α)}
    {k : String} (hk : h.1 = k) : dget (h :: t) k = some h.2 := by
  simp [dget, List.find?, hk]

theorem dget_cons_neg {α : Type} {h : String × α} {t : List (String × α)}
    {k : String} (hk : ¬ h.1 = k) : dget (h :: t) k = dget t k := by
  have hb : (h.1 == k) = false := beq_eq_false_iff_ne.mpr hk
  simp [dget, List.find?, hb]

theorem dget_append {α : Type} (l1 l2 : List (String × α)) (k : String) :
    dget (l1 ++ l2) k = ((dget l1 k).orElse (fun _ => dget l2 k)) := by
  induction l1 with
  | nil => simp [dget]
  | cons h t ih =>
    by_cases hk : h.1 = k
    · rw [List.cons_append, dget_cons_pos hk, dget_cons_pos hk]
      rfl
    · rw [List.cons_append, dget_cons_neg hk, dget_cons_neg hk, ih]

theorem dget_mapOverride {α : Type} (a b : List (String × α)) (k : String) :
    dget (a.map (fun p => (p.1, (dget b p.1).getD p.2))) k =
      (dget a k).map (fun v => (dget b k).getD v) := by
  induction a with
  | nil => simp [dget]
  | cons h t ih =>
    by_cases hk : h.1 = k
    · rw [List.map_cons, dget_cons_pos hk, dget_cons_pos (by simpa using hk), hk]
      rfl
    · rw [List.map_cons, dget_cons_neg hk, dget_cons_neg (by simpa using hk), ih]

theorem dget_filterKeys {α : Type} (b : List (String × α)) (q : String → Bool)
    (k : String) (hq : q k = true) :
    dget (b.filter (fun p => q p.1)) k = dget b k := by
  induction b with
  | nil => rfl
  | cons h t ih =>
    by_cases hk : h.1 = k
    · rw [List.filter_cons, if_pos (by rw [hk]; exact hq)]
      rw [dget_cons_pos hk, dget_cons_pos hk]
    · rw [List.filter_cons]
      by_cases hqh : q h.1 = true
      · rw [if_pos hqh, dget_cons_neg hk, dget_cons_neg hk, ih]
      · rw [if_neg hqh, dget_cons_neg hk, ih]

theorem dget_pyDictMerge {α : Type} (a b : List (String × α)) (k : String) :
    dget (pyDictMerge a b) k =
      match dget a k with
      | some v => some ((dget b k).getD v)
      | none => dget b k := by
  unfold pyDictMerge
  rw [dget_append, dget_mapOverride]
  cases h : dget a k with
  | some v => rfl
  | none =>
    show dget (b.filter (fun p => (dget a p.1).isNone)) k = dget b k
    exact dget_filterKeys b (fun s => (dget a s).isNone) k
      (by show (dget a k).isNone = true; rw [h]; rfl)

theorem dget_stringifyHp (l : List (String × JVal)) (k : String) :
    dget (stringifyHp l) k = (dget l k).map pyStr := by
  induction l with
  | nil => rfl
  | cons h t ih =>
    by_cases hk : h.1 = k
    · rw [stringifyHp, List.map_cons, dget_cons_pos hk, dget_cons_pos (by simpa using hk)]
      rfl
    · rw [stringifyHp, List.map_cons, dget_cons_neg hk, dget_cons_neg (by simpa using hk)]
      exact ih

theorem imageStage_benign (env : Env) (a : Args) :
    ∀ e ∈ (imageStage env a).1, isBenign e = true := by
  unfold imageStage
  split
  · split
    · intro e he
      simp at he
    · split <;> (intro e he; simp at he; subst he; rfl)
  · intro e he
    simp at he

theorem inputDataStage_benign (env : Env) (a : Args) :
    ∀ e ∈ (inputDataStage env a).1, isBenign e = true := by
  unfold inputDataStage
  split
  · intro e he
    simp at he
  · split
    · intro e he; simp at he; subst he; rfl
    · split
      · intro e he; simp at he; subst he; rfl
      · split <;> (intro e he; simp at he; subst he; rfl)

theorem revisionStage_benign (env : Env) (a : Args) :
    ∀ e ∈ (revisionStage env a).1, isBenign e = true := by
  unfold revisionStage
  split <;>
    first
      | (intro e he; simp at he; subst he; rfl)
      | (split <;>
          first
            | (intro e he; simp at he; subst he; rfl)
            | (split <;>
                first
                  | (intro e he; simp at he; subst he; rfl)
                  | (split <;> (intro e he; simp at he; subst he; rfl))))

theorem hyperStage_benign (env : Env) (a : Args) :
    ∀ e ∈ (hyperStage env a).1, isBenign e = true := by
  unfold hyperStage
  split
  · split
    · intro e he
      simp at he
    · intro e he; simp at he; subst he; rfl
  · intro e he
    simp at he

theorem benign_filter_write {l : List Eff}
    (h : ∀ e ∈ l, isBenign e = true) : l.filter isWrite = [] := by
  rw [List.filter_eq_nil_iff]
  intro e he
  have hb := h e he
  cases e <;> simp_all [isBenign, isWrite]

theorem benign_filter_mkdirWrite {l : List Eff}
    (h : ∀ e ∈ l, isBenign e = true) : l.filter isMkdirOrWrite = [] := by
  rw [List.filter_eq_nil_iff]
  intro e he
  have hb := h e he
  cases e <;> simp_all [isBenign, isMkdirOrWrite]

theorem benign_filter_pushWrite {l : List Eff}
    (h : ∀ e ∈ l, isBenign e = true) : l.filter isPushOrWrite = [] := by
  rw [List.filter_eq_nil_iff]
  intro e he
  have hb := h e he
  cases e <;> simp_all [isBenign, isPushOrWrite]

theorem imageStage_ok (env : Env) (a : Args) (e : List Eff) (v : JVal)
    (h : imageStage env a = (e, Except.ok v)) :
    (pyTruthy a.ecr_dir = true →
      e = [Eff.read (pjoin (a.ecr_dir.getD "") "imageDetail.json")] ∧
      ∃ d, env.files (pjoin (a.ecr_dir.getD "") "imageDetail.json") = some d ∧
        dget d "ImageURI" = some v) ∧
    (pyTruthy a.ecr_dir = false →
      e = [] ∧ v = JVal.str (get_training_image env.region)) := by
  unfold imageStage at h
  cases ht : pyTruthy a.ecr_dir with
  | false =>
    rw [ht] at h
    rw [if_neg (by simp)] at h
    injection h with he hv
    injection hv with hv
    subst he
    exact ⟨fun hc => Bool.noConfusion hc, fun _ => ⟨rfl, hv.symm⟩⟩
  | true =>
    rw [ht] at h
    rw [if_pos rfl] at h
    cases hf : env.files (pjoin (a.ecr_dir.getD "") "imageDetail.json") with
    | none =>
      rw [hf] at h
      dsimp only at h
      injection h with he hv
      exact absurd hv (by simp)
    | some d =>
      rw [hf] at h
      dsimp only at h
      cases hu : dget d "ImageURI" with
      | none =>
        rw [hu] at h
        dsimp only at h
        injection h with he hv
        exact absurd hv (by simp)
      | some u =>
        rw [hu] at h
        dsimp only at h
        injection h with he hv
        injection hv with hv
        subst he
        subst hv
        exact ⟨fun _ => ⟨rfl, d, rfl, hu⟩, fun hc => Bool.noConfusion hc⟩

theorem inputDataStage_ok (env : Env) (a : Args) (e : List Eff)
    (d : List (String × JVal)) (h : inputDataStage env a = (e, Except.ok d)) :
    env.files (pjoin a.data_dir "inputData.json") = some d ∧
    e = [Eff.read (pjoin a.data_dir "inputData.json")] ∧
    (dget d "TrainingUri").isSome = true ∧
    (dget d "ValidationUri").isSome = true ∧
    (dget d "BaselineUri").isSome = true := by
  unfold inputDataStage at h
  cases hf : env.files (pjoin a.data_dir "inputData.json") with
  | none =>
    rw [hf] at h
    dsimp only at h
    injection h with he hv
    exact absurd hv (by simp)
  | some input_data =>
    rw [hf] at h
    dsimp only at h
    cases h1 : dget input_data "TrainingUri" with
    | none =>
      rw [h1] at h
      dsimp only at h
      injection h with he hv
      exact absurd hv (by simp)
    | some w1 =>
      rw [h1] at h
      dsimp only at h
      cases h2 : dget input_data "ValidationUri" with
      | none =>
        rw [h2] at h
        dsimp only at h
        injection h with he hv
        exact absurd hv (by simp)
      | some w2 =>
        rw [h2] at h
        dsimp only at h
        cases h3 : dget input_data "BaselineUri" with
        | none =>
          rw [h3] at h
          dsimp only at h
          injection h with he hv
          exact absurd hv (by simp)
        | some w3 =>
          rw [h3] at h
          dsimp only at h
          injection h with he hv
          injection hv with hv
          subst he
          subst hv
          exact ⟨rfl, rfl, by rw [h1]; rfl, by rw [h2]; rfl, by rw [h3]; rfl⟩

theorem revisionStage_ok (env : Env) (a : Args) (e : List Eff)
    (j g d : String)
    (h : revisionStage env a = (e, Except.ok (j, g, d))) :
    ∃ rev, get_pipeline_revision env a.pipeline_name = Except.ok rev ∧
      dget rev "JobId" = some j ∧ dget rev "GitSource" = some g ∧
      dget rev "DataSource" = some d ∧
      e = [Eff.getPipelineState a.pipeline_name] := by
  unfold revisionStage at h
  cases hr : get_pipeline_revision env a.pipeline_name with
  | error err =>
    rw [hr] at h
    dsimp only at h
    injection h with he hv
    exact absurd hv (by simp)
  | ok rev =>
    rw [hr] at h
    dsimp only at h
    cases h1 : dget rev "JobId" with
    | none =>
      rw [h1] at h
      dsimp only at h
      injection h with he hv
      exact absurd hv (by simp)
    | some j2 =>
      rw [h1] at h
      dsimp only at h
      cases h2 : dget rev "GitSource" with
      | none =>
        rw [h2] at h
        dsimp only at h
        injection h with he hv
        exact absurd hv (by simp)
      | some g2 =>
        rw [h2] at h
        dsimp only at h
        cases h3 : dget rev "DataSource" with
        | none =>
          rw [h3] at h
          dsimp only at h
          injection h with he hv
          exact absurd hv (by simp)
        | some d2 =>
          rw [h3] at h
          dsimp only at h
          injection h with he hv
          injection hv with hv
          subst he
          obtain ⟨hj, hg, hd⟩ : j2 = j ∧ g2 = g ∧ d2 = d := by
            have h4 := congrArg Prod.fst hv
            have h5 := congrArg (fun p => p.2.1) hv
            have h6 := congrArg (fun p => p.2.2) hv
            exact ⟨h4, h5, h6⟩
          subst hj; subst hg; subst hd
          exact ⟨rev, rfl, h1, h2, h3, rfl⟩

theorem hyperStage_ok (env : Env) (a : Args) (e : List Eff)
    (hp : List (String × String))
    (h : hyperStage env a = (e, Except.ok hp)) :
    (env.pathExists (pjoin a.data_dir "hyperparameters.json") = false →
      e = [] ∧ hp = []) ∧
    (env.pathExists (pjoin a.data_dir "hyperparameters.json") = true →
      e = [Eff.read (pjoin a.data_dir "hyperparameters.json")] ∧
      ∃ hfile,
        env.files (pjoin a.data_dir "hyperparameters.json") = some hfile ∧
        hp = stringifyHp hfile) := by
  unfold hyperStage at h
  cases ht : env.pathExists (pjoin a.data_dir "hyperparameters.json") with
  | false =>
    rw [ht] at h
    rw [if_neg (by simp)] at h
    injection h with he hv
    injection hv with hv
    subst he
    subst hv
    exact ⟨fun _ => ⟨rfl, rfl⟩, fun hc => Bool.noConfusion hc⟩
  | true =>
    rw [ht] at h
    rw [if_pos rfl] at h
    cases hf : env.files (pjoin a.data_dir "hyperparameters.json") with
    | none =>
      rw [hf] at h
      dsimp only at h
      injection h with he hv
      exact absurd hv (by simp)
    | some hfile =>
      rw [hf] at h
      dsimp only at h
      injection h with he hv
      injection hv with hv
      subst he
      subst hv
      exact ⟨fun hc => Bool.noConfusion hc, fun _ => ⟨rfl, hfile, rfl, rfl⟩⟩

theorem run_success (env : Env) (a : Args) (tr : List Eff)
    (h : run env a = (tr, none)) :
    ∃ e1 e2 e3 e4 image_uri input_data hyperparameters job_id git_commit_id
      data_version_id,
      imageStage env a = (e1, Except.ok image_uri) ∧
      inputDataStage env a = (e2, Except.ok input_data) ∧
      revisionStage env a
        = (e3, Except.ok (job_id, git_commit_id, data_version_id)) ∧
      hyperStage env a = (e4, Except.ok hyperparameters) ∧
      env.updateOk = true ∧
      tr = e1 ++ e2 ++ e3 ++ e4 ++
        [Eff.attachWorkflow a.workflow_pipeline_arn,
         Eff.updateWorkflow a.workflow_pipeline_arn
           (workflow_graph_of env a image_uri input_data hyperparameters
             job_id)] ++
        (if env.pathExists a.output_dir then [] else [Eff.mkdir a.output_dir]) ++
        writes_of env a image_uri input_data hyperparameters job_id
          git_commit_id data_version_id := by
  unfold run at h
  rcases h1 : imageStage env a with ⟨e1, r1⟩
  rw [h1] at h
  cases r1 with
  | error err => simp at h
  | ok image_uri =>
    rcases h2 : inputDataStage env a with ⟨e2, r2⟩
    rw [h2] at h
    cases r2 with
    | error err => simp at h
    | ok input_data =>
      rcases h3 : revisionStage env a with ⟨e3, r3⟩
      rw [h3] at h
      cases r3 with
      | error err => simp at h
      | ok trip =>
        obtain ⟨job_id, git_commit_id, data_version_id⟩ := trip
        rcases h4 : hyperStage env a with ⟨e4, r4⟩
        rw [h4] at h
        cases r4 with
        | error err => simp at h
        | ok hyperparameters =>
          cases hupd : env.updateOk with
          | false =>
            rw [hupd] at h
            simp at h
          | true =>
            rw [hupd] at h
            simp only [if_true] at h
            refine ⟨e1, e2, e3, e4, image_uri, input_data, hyperparameters,
              job_id, git_commit_id, data_version_id, rfl, rfl, rfl, rfl, rfl, ?_⟩
            have := congrArg Prod.fst h
            simpa using this.symm

theorem run_error_no_mkdir_write (env : Env) (a : Args) (tr : List Eff)
    (err : Err) (h : run env a = (tr, some err)) :
    tr.filter isMkdirOrWrite = [] := by
  unfold run at h
  rcases h1 : imageStage env a with ⟨e1, r1⟩
  rw [h1] at h
  have b1 : ∀ e ∈ e1, isBenign e = true := by
    have := imageStage_benign env a; rw [h1] at this; exact this
  cases r1 with
  | error e =>
    simp at h
    rw [← h.1, benign_filter_mkdirWrite b1]
  | ok image_uri =>
    rcases h2 : inputDataStage env a with ⟨e2, r2⟩
    rw [h2] at h
    have b2 : ∀ e ∈ e2, isBenign e = true := by
      have := inputDataStage_benign env a; rw [h2] at this; exact this
    cases r2 with
    | error e =>
      simp at h
      rw [← h.1, List.filter_append, benign_filter_mkdirWrite b1,
        benign_filter_mkdirWrite b2, List.nil_append]
    | ok input_data =>
      rcases h3 : revisionStage env a with ⟨e3, r3⟩
      rw [h3] at h
      have b3 : ∀ e ∈ e3, isBenign e = true := by
        have := revisionStage_benign env a; rw [h3] at this; exact this
      cases r3 with
      | error e =>
        simp at h
        rw [← h.1, List.filter_append, List.filter_append,
          benign_filter_mkdirWrite b1, benign_filter_mkdirWrite b2,
          benign_filter_mkdirWrite b3, List.nil_append, List.nil_append]
      | ok trip =>
        obtain ⟨job_id, git_commit_id, data_version_id⟩ := trip
        rcases h4 : hyperStage env a with ⟨e4, r4⟩
        rw [h4] at h
        have b4 : ∀ e ∈ e4, isBenign e = true := by
          have := hyperStage_benign env a; rw [h4] at this; exact this
        cases r4 with
        | error e =>
          simp at h
          rw [← h.1, List.filter_append, List.filter_append,
            List.filter_append, benign_filter_mkdirWrite b1,
            benign_filter_mkdirWrite b2, benign_filter_mkdirWrite b3,
            benign_filter_mkdirWrite b4]
          rfl
        | ok hyperparameters =>
          cases hupd : env.updateOk with
          | true =>
            rw [hupd] at h
            simp at h
          | false =>
            rw [hupd] at h
            simp at h
            rw [← h.1, List.filter_append, List.filter_append,
              List.filter_append, List.filter_append,
              benign_filter_mkdirWrite b1, benign_filter_mkdirWrite b2,
              benign_filter_mkdirWrite b3, benign_filter_mkdirWrite b4]
            rfl

/-- C1: for every set of inputs, the workflow graph built by
`create_graph` from the three builders is a chain whose first step is
the "Create Experiment" Lambda step and whose second step is a Parallel
state with exactly two branches: the "Baseline Job" processing step and
a training chain consisting, in order, of the "Training Job" training
step, the "Save Model" model step, the "Query Training Results" Lambda
step and the "RMSE < 10" Choice step. -/
theorem C1_workflow_graph_structure (cf : String) (image_uri : JVal)
    (hyperparameters : List (String × String))
    (input_data : List (String × JVal)) (output_data : List (String × String))
    (ei : ExecutionInput) (q region role : String) :
    ∃ tstep mstep qstep,
      create_graph (create_experiment_step cf)
        (create_baseline_step input_data ei region role)
        (create_training_step image_uri hyperparameters input_data output_data
          ei q region role)
      = Step.chain [create_experiment_step cf,
          Step.parallelState "SageMaker Jobs"
            [create_baseline_step input_data ei region role,
             Step.chain [tstep, mstep, qstep, check_accuracy_step]]
            [(["States.TaskFailed"],
              Step.failState "SageMaker Jobs failed" (some "SageMakerJobsFailed")
                none)]] ∧
      create_experiment_step cf = Step.lambdaStep "Create Experiment" cf
        [("ExperimentName.$", "$.ExperimentName"),
         ("TrialName.$", "$.TrialName")] "$.CreateTrialResults" ∧
      (∃ img rl ic it mrt env2 jn ins outs ec tags cs,
        create_baseline_step input_data ei region role
          = Step.processingStep "Baseline Job" img rl ic it mrt env2 jn ins outs
              ec tags cs) ∧
      (∃ est data jn ec tags rp cs,
        tstep = Step.trainingStep "Training Job" est data jn ec tags rp cs) ∧
      (∃ ip mdl mn rp, mstep = Step.modelStep "Save Model" ip mdl mn rp) ∧
      (∃ fn pl rp, qstep = Step.lambdaStep "Query Training Results" fn pl rp) ∧
      stepName check_accuracy_step = "RMSE < 10" := by
  exact ⟨_, _, _, rfl, rfl,
    ⟨_, _, _, _, _, _, _, _, _, _, _, _, rfl⟩,
    ⟨_, _, _, _, _, _, _, rfl⟩, ⟨_, _, _, _, rfl⟩, ⟨_, _, _, rfl⟩, rfl⟩

/-- C2: the accuracy gate built by `create_training_step` is, for every
set of arguments, the Choice state with the single rule
`NumericLessThan` on the first `TrainingMetrics` entry of the
query-training Lambda payload against the fixed literal threshold 10;
it routes to the Succeed state "Model Error Acceptable" exactly when
that value is numerically less than 10 and to the Fail state
"Model Error Too Low" in every other case. -/
theorem C2_accuracy_gate (image_uri : JVal)
    (hyperparameters : List (String × String))
    (input_data : List (String × JVal)) (output_data : List (String × String))
    (ei : ExecutionInput) (q region role : String)
    (env : List PathElem → Option ℚ) (v : ℚ)
    (hv : env training_metric_path = some v) :
    (∃ t m qs,
      create_training_step image_uri hyperparameters input_data output_data ei
        q region role
      = Step.chain [t, m, qs,
          Step.choiceState "RMSE < 10"
            [(ChoiceRule.numericLessThan training_metric_path 10,
              check_accuracy_succeed_step)]
            (some check_accuracy_fail_step)]) ∧
    (routeChoice
        [(ChoiceRule.numericLessThan training_metric_path 10,
          check_accuracy_succeed_step)]
        (some check_accuracy_fail_step) env
      = some check_accuracy_succeed_step ↔ v < 10) ∧
    (routeChoice
        [(ChoiceRule.numericLessThan training_metric_path 10,
          check_accuracy_succeed_step)]
        (some check_accuracy_fail_step) env
      = some check_accuracy_fail_step ↔ ¬ v < 10) := by
  have hrule : choiceRuleHolds env
      (ChoiceRule.numericLessThan training_metric_path 10) = decide (v < 10) := by
    show (match env training_metric_path with
      | some x => decide (x < (10 : ℚ))
      | none => false) = decide (v < 10)
    rw [hv]
  refine ⟨⟨_, _, _, rfl⟩, ?_, ?_⟩ <;>
  · unfold routeChoice
    by_cases hlt : v < 10
    · rw [List.find?_cons_of_pos _ (by simp [hrule, hlt])]
      simp [hlt, check_accuracy_succeed_step, check_accuracy_fail_step]
    · rw [List.find?_cons_of_neg _ (by simp [hrule, hlt])]
      simp [hlt, check_accuracy_succeed_step, check_accuracy_fail_step]

/-- C3: on every successful run, `main` writes exactly four JSON
artifacts into `output_dir` — `workflow-graph.json` (the serialized
state-machine definition), `workflow-input.json` (the execution
inputs), `deploy-model-dev.json` (the dev CloudFormation parameters)
and `template-model-prd.json` (the prod CloudFormation parameters) —
creating `output_dir` first when it does not exist, and performs no
other write or directory creation. -/
theorem C3_artifacts (env : Env) (a : Args) (tr : List Eff)
    (h : run env a = (tr, none)) :
    ∃ g wi dv pr,
      tr.filter isWrite =
        [Eff.write (pjoin a.output_dir "workflow-graph.json")
           (Content.graphJson g),
         Eff.write (pjoin a.output_dir "workflow-input.json") (Content.obj wi),
         Eff.write (pjoin a.output_dir "deploy-model-dev.json")
           (Content.paramsObj dv),
         Eff.write (pjoin a.output_dir "template-model-prd.json")
           (Content.paramsObj pr)] ∧
      tr.filter isMkdirOrWrite =
        (if env.pathExists a.output_dir then [] else [Eff.mkdir a.output_dir])
          ++ tr.filter isWrite := by
  obtain ⟨e1, e2, e3, e4, iu, idata, hp, j, gc, dvv, h1, h2, h3, h4, hupd, htr⟩ :=
    run_success env a tr h
  have b1 : ∀ e ∈ e1, isBenign e = true := by
    have hb := imageStage_benign env a; rw [h1] at hb; exact hb
  have b2 : ∀ e ∈ e2, isBenign e = true := by
    have hb := inputDataStage_benign env a; rw [h2] at hb; exact hb
  have b3 : ∀ e ∈ e3, isBenign e = true := by
    have hb := revisionStage_benign env a; rw [h3] at hb; exact hb
  have b4 : ∀ e ∈ e4, isBenign e = true := by
    have hb := hyperStage_benign env a; rw [h4] at hb; exact hb
  have hw : tr.filter isWrite = writes_of env a iu idata hp j gc dvv := by
    rw [htr]
    simp only [List.filter_append]
    rw [benign_filter_write b1, benign_filter_write b2, benign_filter_write b3,
      benign_filter_write b4]
    cases hpe : env.pathExists a.output_dir <;>
      simp [writes_of, isWrite, List.filter]
  have hmw : tr.filter isMkdirOrWrite =
      (if env.pathExists a.output_dir then [] else [Eff.mkdir a.output_dir]) ++
        writes_of env a iu idata hp j gc dvv := by
    rw [htr]
    simp only [List.filter_append]
    rw [benign_filter_mkdirWrite b1, benign_filter_mkdirWrite b2,
      benign_filter_mkdirWrite b3, benign_filter_mkdirWrite b4]
    cases hpe : env.pathExists a.output_dir <;>
      simp [writes_of, isMkdirOrWrite, List.filter]
  refine ⟨workflow_graph_of env a iu idata hp j, workflow_inputs_of a j gc dvv,
    get_dev_params a.model_name j a.deploy_role iu a.kms_key_id,
    get_prd_params a.model_name j a.deploy_role iu a.kms_key_id, ?_, ?_⟩
  · rw [hw]; rfl
  · rw [hmw, hw]

/-- C4: `main` pushes the built graph by attaching to the workflow named
by `workflow_pipeline_arn` and calling update with that graph exactly
once, before any of the JSON artifacts is written: restricted to
attach/update/write effects the trace is exactly one attach and one
update of the built graph followed by the four writes, the written
`workflow-graph.json` carrying the very graph that was pushed. -/
theorem C4_push_before_writes (env : Env) (a : Args) (tr : List Eff)
    (h : run env a = (tr, none)) :
    ∃ g wi dv pr,
      tr.filter isPushOrWrite =
        [Eff.attachWorkflow a.workflow_pipeline_arn,
         Eff.updateWorkflow a.workflow_pipeline_arn g,
         Eff.write (pjoin a.output_dir "workflow-graph.json")
           (Content.graphJson g),
         Eff.write (pjoin a.output_dir "workflow-input.json") (Content.obj wi),
         Eff.write (pjoin a.output_dir "deploy-model-dev.json")
           (Content.paramsObj dv),
         Eff.write (pjoin a.output_dir "template-model-prd.json")
           (Content.paramsObj pr)] := by
  obtain ⟨e1, e2, e3, e4, iu, idata, hp, j, gc, dvv, h1, h2, h3, h4, hupd, htr⟩ :=
    run_success env a tr h
  have b1 : ∀ e ∈ e1, isBenign e = true := by
    have hb := imageStage_benign env a; rw [h1] at hb; exact hb
  have b2 : ∀ e ∈ e2, isBenign e = true := by
    have hb := inputDataStage_benign env a; rw [h2] at hb; exact hb
  have b3 : ∀ e ∈ e3, isBenign e = true := by
    have hb := revisionStage_benign env a; rw [h3] at hb; exact hb
  have b4 : ∀ e ∈ e4, isBenign e = true := by
    have hb := hyperStage_benign env a; rw [h4] at hb; exact hb
  refine ⟨workflow_graph_of env a iu idata hp j, workflow_inputs_of a j gc dvv,
    get_dev_params a.model_name j a.deploy_role iu a.kms_key_id,
    get_prd_params a.model_name j a.deploy_role iu a.kms_key_id, ?_⟩
  rw [htr]
  simp only [List.filter_append]
  rw [benign_filter_pushWrite b1, benign_filter_pushWrite b2,
    benign_filter_pushWrite b3, benign_filter_pushWrite b4]
  cases hpe : env.pathExists a.output_dir <;>
    simp [writes_of, isPushOrWrite, List.filter]

/-- C5: `main` reads `inputData.json` from `data_dir` on every
successful run and that file contains `TrainingUri`, `ValidationUri`
and `BaselineUri`; `hyperparameters.json` is read exactly when it
exists, the hyperparameters being empty otherwise; `imageDetail.json`
is read from `ecr_dir` and its `ImageURI` field used as the training
image exactly when `ecr_dir` is non-empty, the managed xgboost image
for the current region being used otherwise. -/
theorem C5_config_reads (env : Env) (a : Args) (tr : List Eff)
    (h : run env a = (tr, none)) :
    ∃ eI eH image_uri input_data hyperparameters,
      imageStage env a = (eI, Except.ok image_uri) ∧
      hyperStage env a = (eH, Except.ok hyperparameters) ∧
      Eff.read (pjoin a.data_dir "inputData.json") ∈ tr ∧
      env.files (pjoin a.data_dir "inputData.json") = some input_data ∧
      (dget input_data "TrainingUri").isSome = true ∧
      (dget input_data "ValidationUri").isSome = true ∧
      (dget input_data "BaselineUri").isSome = true ∧
      (env.pathExists (pjoin a.data_dir "hyperparameters.json") = true →
        eH = [Eff.read (pjoin a.data_dir "hyperparameters.json")] ∧
        Eff.read (pjoin a.data_dir "hyperparameters.json") ∈ tr ∧
        ∃ hfile,
          env.files (pjoin a.data_dir "hyperparameters.json") = some hfile ∧
          hyperparameters = stringifyHp hfile) ∧
      (env.pathExists (pjoin a.data_dir "hyperparameters.json") = false →
        eH = [] ∧ hyperparameters = []) ∧
      (pyTruthy a.ecr_dir = true →
        eI = [Eff.read (pjoin (a.ecr_dir.getD "") "imageDetail.json")] ∧
        Eff.read (pjoin (a.ecr_dir.getD "") "imageDetail.json") ∈ tr ∧
        ∃ d, env.files (pjoin (a.ecr_dir.getD "") "imageDetail.json") = some d ∧
          dget d "ImageURI" = some image_uri) ∧
      (pyTruthy a.ecr_dir = false →
        eI = [] ∧ image_uri = JVal.str (get_training_image env.region)) ∧
      (∃ job_id est,
        chainTrainingEstimator
          (create_training_step image_uri hyperparameters input_data
            (output_data_of a job_id) execution_input_schema
            a.query_training_function_name env.region a.sagemaker_role)
          = some est ∧
        est.image_uri = image_uri ∧
        Eff.updateWorkflow a.workflow_pipeline_arn
          (workflow_graph_of env a image_uri input_data hyperparameters
            job_id) ∈ tr) := by
  obtain ⟨e1, e2, e3, e4, iu, idata, hp, j, gc, dvv, h1, h2, h3, h4, hupd, htr⟩ :=
    run_success env a tr h
  obtain ⟨hfI, hkI⟩ := imageStage_ok env a e1 iu h1
  obtain ⟨hfd, he2, hT, hV, hB⟩ := inputDataStage_ok env a e2 idata h2
  obtain ⟨hHf, hHt⟩ := hyperStage_ok env a e4 hp h4
  refine ⟨e1, e4, iu, idata, hp, h1, h4, ?_, hfd, hT, hV, hB, ?_, ?_, ?_, ?_,
    j, _, rfl, rfl, ?_⟩
  · rw [htr, he2]
    simp
  · intro hex
    obtain ⟨heH, hrest⟩ := hHt hex
    exact ⟨heH, by rw [htr, heH]; simp, hrest⟩
  · intro hex
    exact hHf hex
  · intro hec
    obtain ⟨heI, hrest⟩ := hfI hec
    exact ⟨heI, by rw [htr, heI]; simp, hrest⟩
  · intro hec
    obtain ⟨heI, himg⟩ := hkI hec
    exact ⟨heI, himg⟩
  · rw [htr]
    simp

/-- C9: in the `workflow-input.json` artifact written by `main`, the
fields `TrialName`, `BaselineJobName` and `TrainingJobName` all equal
`mlops-<model_name>-<job_id>`, `ExperimentName` equals
`mlops-<model_name>`, and `BaselineOutputUri` equals
`s3://<sagemaker_bucket>/<model_name>/monitoring/baseline/mlops-<model_name>-pbl-<job_id>`,
where `job_id` is the `JobId` of the revision returned by
`get_pipeline_revision`. -/
theorem C9_workflow_inputs (env : Env) (a : Args) (tr : List Eff)
    (h : run env a = (tr, none)) :
    ∃ rev job_id git_commit_id data_version_id,
      get_pipeline_revision env a.pipeline_name = Except.ok rev ∧
      dget rev "JobId" = some job_id ∧
      Eff.write (pjoin a.output_dir "workflow-input.json")
        (Content.obj
          (workflow_inputs_of a job_id git_commit_id data_version_id)) ∈ tr ∧
      dget (workflow_inputs_of a job_id git_commit_id data_version_id)
          "ExperimentName"
        = some (JVal.str ("mlops-" ++ a.model_name)) ∧
      dget (workflow_inputs_of a job_id git_commit_id data_version_id)
          "TrialName"
        = some (JVal.str ("mlops-" ++ a.model_name ++ "-" ++ job_id)) ∧
      dget (workflow_inputs_of a job_id git_commit_id data_version_id)
          "BaselineJobName"
        = some (JVal.str ("mlops-" ++ a.model_name ++ "-" ++ job_id)) ∧
      dget (workflow_inputs_of a job_id git_commit_id data_version_id)
          "TrainingJobName"
        = some (JVal.str ("mlops-" ++ a.model_name ++ "-" ++ job_id)) ∧
      dget (workflow_inputs_of a job_id git_commit_id data_version_id)
          "BaselineOutputUri"
        = some (JVal.str
            ("s3://" ++ a.sagemaker_bucket ++ "/" ++ a.model_name ++
              "/monitoring/baseline/mlops-" ++ a.model_name ++ "-pbl-" ++
              job_id)) := by
  obtain ⟨e1, e2, e3, e4, iu, idata, hp, j, gc, dvv, h1, h2, h3, h4, hupd, htr⟩ :=
    run_success env a tr h
  obtain ⟨rev, hrev, hJ, hG, hD, he3⟩ := revisionStage_ok env a e3 j gc dvv h3
  refine ⟨rev, j, gc, dvv, hrev, hJ, ?_, rfl, rfl, rfl, rfl, rfl⟩
  rw [htr]
  simp [writes_of]

/-- C10: under any of the early-failure conditions — `inputData.json`
missing or lacking `TrainingUri`, `ValidationUri` or `BaselineUri`, the
pipeline revision lacking a `GitSource` or `DataSource` entry, or the
workflow update failing — `main` raises an exception and produces no
artifact: its trace contains no directory creation and no file
write. -/
theorem C10_early_failure_no_artifacts (env : Env) (a : Args)
    (hf : earlyFailure env a) :
    ((run env a).2).isSome = true ∧
    ((run env a).1).filter isMkdirOrWrite = [] := by
  have hsome : ((run env a).2).isSome = true := by
    by_contra hc
    have hn : (run env a).2 = none := by
      cases ho : (run env a).2
      · rfl
      · rw [ho] at hc
        exact absurd rfl hc
    have hrun : run env a = ((run env a).1, none) := by
      rw [← hn]
    obtain ⟨e1, e2, e3, e4, iu, idata, hp, j, gc, dvv, h1, h2, h3, h4, hupd,
      htr⟩ := run_success env a (run env a).1 hrun
    rcases hf with hmiss | ⟨dd, hdd, hkey⟩ | ⟨rev, hrev, hkey⟩ | hupd2
    · obtain ⟨hfd, _, _, _, _⟩ := inputDataStage_ok env a e2 idata h2
      rw [hmiss] at hfd
      exact Option.noConfusion hfd
    · obtain ⟨hfd, _, hT, hV, hB⟩ := inputDataStage_ok env a e2 idata h2
      rw [hdd] at hfd
      have hdi : dd = idata := Option.some.inj hfd
      subst hdi
      rcases hkey with hk | hk | hk
      · rw [hk] at hT
        exact absurd hT (by simp)
      · rw [hk] at hV
        exact absurd hV (by simp)
      · rw [hk] at hB
        exact absurd hB (by simp)
    · obtain ⟨rev2, hrev2, hJ2, hG2, hD2, _⟩ :=
        revisionStage_ok env a e3 j gc dvv h3
      rw [hrev] at hrev2
      have hre : rev = rev2 := Except.ok.inj hrev2
      subst hre
      rcases hkey with hk | hk
      · rw [hk] at hG2
        exact Option.noConfusion hG2
      · rw [hk] at hD2
        exact Option.noConfusion hD2
    · rw [hupd] at hupd2
      exact Bool.noConfusion hupd2
  refine ⟨hsome, ?_⟩
  obtain ⟨err, herr⟩ := Option.isSome_iff_exists.mp hsome
  refine run_error_no_mkdir_write env a (run env a).1 err ?_
  rw [← herr]

/-- C6: the hyperparameters read from `hyperparameters.json` (and
stringified by `main`) are passed through to the training estimator:
every key of the file overrides, with its stringified value, the
built-in defaults, and every default whose key is absent from the file
is passed unchanged. -/
theorem C6_hyperparameter_override (image_uri : JVal)
    (file_hp input_data : List (String × JVal))
    (output_data : List (String × String)) (ei : ExecutionInput)
    (q region role : String) :
    ∃ est,
      chainTrainingEstimator
        (create_training_step image_uri (stringifyHp file_hp) input_data
          output_data ei q region role) = some est ∧
      est.hyperparameters =
        pyDictMerge default_hyperparameters (stringifyHp file_hp) ∧
      (∀ k v, dget file_hp k = some v →
        dget est.hyperparameters k = some (pyStr v)) ∧
      (∀ k v, dget default_hyperparameters k = some v →
        dget file_hp k = none → dget est.hyperparameters k = some v) := by
  refine ⟨_, rfl, rfl, ?_, ?_⟩
  · intro k v hkv
    show dget (pyDictMerge default_hyperparameters (stringifyHp file_hp)) k
      = some (pyStr v)
    rw [dget_pyDictMerge, dget_stringifyHp, hkv]
    cases dget default_hyperparameters k <;> rfl
  · intro k v hdef hnot
    show dget (pyDictMerge default_hyperparameters (stringifyHp file_hp)) k
      = some v
    rw [dget_pyDictMerge, dget_stringifyHp, hdef, hnot]
    rfl

/-- C7: the graph-building functions are deterministic in their
arguments: two runs with equal arguments produce equal steps and an
equal workflow graph; no remote job result enters the construction. -/
theorem C7_graph_determinism (x y : GraphInputs) (h : x = y) :
    create_experiment_step x.create_experiment_function_name
      = create_experiment_step y.create_experiment_function_name ∧
    create_baseline_step x.input_data x.execution_input x.region x.role
      = create_baseline_step y.input_data y.execution_input y.region y.role ∧
    create_training_step x.image_uri x.hyperparameters x.input_data
        x.output_data x.execution_input x.query_training_function_name
        x.region x.role
      = create_training_step y.image_uri y.hyperparameters y.input_data
        y.output_data y.execution_input y.query_training_function_name
        y.region y.role ∧
    buildWorkflowGraph x = buildWorkflowGraph y := by
  subst h
  exact ⟨rfl, rfl, rfl, rfl⟩

/-- C8: `get_prd_params` returns every key of `get_dev_params` with an
unchanged value except `VariantName`, which becomes `prd-<model_name>`
instead of `dev-<model_name>`, plus exactly the two additional keys
`ScheduleMetricName` (`feature_baseline_drift_total_amount`) and
`ScheduleMetricThreshold` (the string `0.20`), in that order. -/
theorem C8_prd_params_extend_dev (model_name job_id role : String)
    (image_uri : JVal) (kms_key_id : String) :
    get_dev_params model_name job_id role image_uri kms_key_id =
      [("ImageRepoUri", image_uri),
       ("ModelName", JVal.str model_name),
       ("TrainJobId", JVal.str job_id),
       ("MLOpsRoleArn", JVal.str role),
       ("VariantName", JVal.str ("dev-" ++ model_name)),
       ("KmsKeyId", JVal.str kms_key_id)] ∧
    get_prd_params model_name job_id role image_uri kms_key_id =
      [("ImageRepoUri", image_uri),
       ("ModelName", JVal.str model_name),
       ("TrainJobId", JVal.str job_id),
       ("MLOpsRoleArn", JVal.str role),
       ("VariantName", JVal.str ("prd-" ++ model_name)),
       ("KmsKeyId", JVal.str kms_key_id),
       ("ScheduleMetricName", JVal.str "feature_baseline_drift_total_amount"),
       ("ScheduleMetricThreshold", JVal.str "0.20")] :=
  ⟨rfl, rfl⟩

theorem C2_accuracy_gate_witness :
    (fun p => if p = training_metric_path then some (5 : ℚ) else none)
        training_metric_path = some (5 : ℚ) ∧
    routeChoice
        [(ChoiceRule.numericLessThan training_metric_path 10,
          check_accuracy_succeed_step)]
        (some check_accuracy_fail_step)
        (fun p => if p = training_metric_path then some (5 : ℚ) else none)
      = some check_accuracy_succeed_step := by
  have hv : (fun p => if p = training_metric_path then some (5 : ℚ) else none)
      training_metric_path = some (5 : ℚ) := by simp
  refine ⟨hv, ?_⟩
  exact ((C2_accuracy_gate JVal.null [] [] [] ⟨[]⟩ "q" "r" "ro"
    (fun p => if p = training_metric_path then some (5 : ℚ) else none) 5
    hv).2.1).mpr (by norm_num)

theorem C3_artifacts_witness :
    run env0 a0 = ((run env0 a0).1, none) ∧
    ∃ g wi dv pr,
      ((run env0 a0).1).filter isWrite =
        [Eff.write (pjoin a0.output_dir "workflow-graph.json")
           (Content.graphJson g),
         Eff.write (pjoin a0.output_dir "workflow-input.json") (Content.obj wi),
         Eff.write (pjoin a0.output_dir "deploy-model-dev.json")
           (Content.paramsObj dv),
         Eff.write (pjoin a0.output_dir "template-model-prd.json")
           (Content.paramsObj pr)] ∧
      ((run env0 a0).1).filter isMkdirOrWrite =
        (if env0.pathExists a0.output_dir then [] else [Eff.mkdir a0.output_dir])
          ++ ((run env0 a0).1).filter isWrite :=
  ⟨rfl, C3_artifacts env0 a0 (run env0 a0).1 rfl⟩

theorem C4_push_before_writes_witness :
    run env0 a0 = ((run env0 a0).1, none) ∧
    ∃ g wi dv pr,
      ((run env0 a0).1).filter isPushOrWrite =
        [Eff.attachWorkflow a0.workflow_pipeline_arn,
         Eff.updateWorkflow a0.workflow_pipeline_arn g,
         Eff.write (pjoin a0.output_dir "workflow-graph.json")
           (Content.graphJson g),
         Eff.write (pjoin a0.output_dir "workflow-input.json") (Content.obj wi),
         Eff.write (pjoin a0.output_dir "deploy-model-dev.json")
           (Content.paramsObj dv),
         Eff.write (pjoin a0.output_dir "template-model-prd.json")
           (Content.paramsObj pr)] :=
  ⟨rfl, C4_push_before_writes env0 a0 (run env0 a0).1 rfl⟩

theorem C5_config_reads_witness :
    run env0 a0 = ((run env0 a0).1, none) ∧
    ∃ eI eH image_uri input_data hyperparameters,
      imageStage env0 a0 = (eI, Except.ok image_uri) ∧
      hyperStage env0 a0 = (eH, Except.ok hyperparameters) ∧
      Eff.read (pjoin a0.data_dir "inputData.json") ∈ (run env0 a0).1 ∧
      env0.files (pjoin a0.data_dir "inputData.json") = some input_data ∧
      (dget input_data "TrainingUri").isSome = true ∧
      (dget input_data "ValidationUri").isSome = true ∧
      (dget input_data "BaselineUri").isSome = true ∧
      (env0.pathExists (pjoin a0.data_dir "hyperparameters.json") = true →
        eH = [Eff.read (pjoin a0.data_dir "hyperparameters.json")] ∧
        Eff.read (pjoin a0.data_dir "hyperparameters.json") ∈ (run env0 a0).1 ∧
        ∃ hfile,
          env0.files (pjoin a0.data_dir "hyperparameters.json") = some hfile ∧
          hyperparameters = stringifyHp hfile) ∧
      (env0.pathExists (pjoin a0.data_dir "hyperparameters.json") = false →
        eH = [] ∧ hyperparameters = []) ∧
      (pyTruthy a0.ecr_dir = true →
        eI = [Eff.read (pjoin (a0.ecr_dir.getD "") "imageDetail.json")] ∧
        Eff.read (pjoin (a0.ecr_dir.getD "") "imageDetail.json")
          ∈ (run env0 a0).1 ∧
        ∃ d,
          env0.files (pjoin (a0.ecr_dir.getD "") "imageDetail.json") = some d ∧
          dget d "ImageURI" = some image_uri) ∧
      (pyTruthy a0.ecr_dir = false →
        eI = [] ∧ image_uri = JVal.str (get_training_image env0.region)) ∧
      (∃ job_id est,
        chainTrainingEstimator
          (create_training_step image_uri hyperparameters input_data
            (output_data_of a0 job_id) execution_input_schema
            a0.query_training_function_name env0.region a0.sagemaker_role)
          = some est ∧
        est.image_uri = image_uri ∧
        Eff.updateWorkflow a0.workflow_pipeline_arn
          (workflow_graph_of env0 a0 image_uri input_data hyperparameters
            job_id) ∈ (run env0 a0).1) :=
  ⟨rfl, C5_config_reads env0 a0 (run env0 a0).1 rfl⟩

theorem C6_hyperparameter_override_witness :
    dget [("eta", JVal.str "0.5")] "eta" = some (JVal.str "0.5") ∧
    dget default_hyperparameters "max_depth" = some "9" ∧
    dget [("eta", JVal.str "0.5")] "max_depth" = none ∧
    ∃ est,
      chainTrainingEstimator
        (create_training_step (JVal.str "img")
          (stringifyHp [("eta", JVal.str "0.5")]) [] [] ⟨[]⟩ "q" "r" "ro")
        = some est ∧
      dget est.hyperparameters "eta" = some "0.5" ∧
      dget est.hyperparameters "max_depth" = some "9" := by
  obtain ⟨est, h1, h2, hov, hdef⟩ := C6_hyperparameter_override (JVal.str "img")
    [("eta", JVal.str "0.5")] [] [] ⟨[]⟩ "q" "r" "ro"
  exact ⟨rfl, rfl, rfl, est, h1,
    hov "eta" (JVal.str "0.5") rfl, hdef "max_depth" "9" rfl rfl⟩

theorem C7_graph_determinism_witness :
    (⟨"f", JVal.str "i", [], [], [], ⟨[]⟩, "q", "r", "ro"⟩ : GraphInputs)
      = (⟨"f", JVal.str "i", [], [], [], ⟨[]⟩, "q", "r", "ro"⟩ : GraphInputs) ∧
    buildWorkflowGraph ⟨"f", JVal.str "i", [], [], [], ⟨[]⟩, "q", "r", "ro"⟩
      = buildWorkflowGraph ⟨"f", JVal.str "i", [], [], [], ⟨[]⟩, "q", "r", "ro"⟩ :=
  ⟨rfl, (C7_graph_determinism ⟨"f", JVal.str "i", [], [], [], ⟨[]⟩, "q", "r", "ro"⟩
    ⟨"f", JVal.str "i", [], [], [], ⟨[]⟩, "q", "r", "ro"⟩ rfl).2.2.2⟩

theorem C9_workflow_inputs_witness :
    run env0 a0 = ((run env0 a0).1, none) ∧
    ∃ rev job_id git_commit_id data_version_id,
      get_pipeline_revision env0 a0.pipeline_name = Except.ok rev ∧
      dget rev "JobId" = some job_id ∧
      Eff.write (pjoin a0.output_dir "workflow-input.json")
        (Content.obj
          (workflow_inputs_of a0 job_id git_commit_id data_version_id))
        ∈ (run env0 a0).1 ∧
      dget (workflow_inputs_of a0 job_id git_commit_id data_version_id)
          "ExperimentName"
        = some (JVal.str ("mlops-" ++ a0.model_name)) ∧
      dget (workflow_inputs_of a0 job_id git_commit_id data_version_id)
          "TrialName"
        = some (JVal.str ("mlops-" ++ a0.model_name ++ "-" ++ job_id)) ∧
      dget (workflow_inputs_of a0 job_id git_commit_id data_version_id)
          "BaselineJobName"
        = some (JVal.str ("mlops-" ++ a0.model_name ++ "-" ++ job_id)) ∧
      dget (workflow_inputs_of a0 job_id git_commit_id data_version_id)
          "TrainingJobName"
        = some (JVal.str ("mlops-" ++ a0.model_name ++ "-" ++ job_id)) ∧
      dget (workflow_inputs_of a0 job_id git_commit_id data_version_id)
          "BaselineOutputUri"
        = some (JVal.str
            ("s3://" ++ a0.sagemaker_bucket ++ "/" ++ a0.model_name ++
              "/monitoring/baseline/mlops-" ++ a0.model_name ++ "-pbl-" ++
              job_id)) :=
  ⟨rfl, C9_workflow_inputs env0 a0 (run env0 a0).1 rfl⟩

theorem C10_early_failure_no_artifacts_witness :
    earlyFailure envFail a0 ∧
    ((run envFail a0).2).isSome = true ∧
    ((run envFail a0).1).filter isMkdirOrWrite = [] :=
  ⟨Or.inl rfl, C10_early_failure_no_artifacts envFail a0 (Or.inl rfl)⟩

end RunModel
